import Mathlib

/-!
Verification of `olympe._private.pomp_loop_thread` (Parrot Olympe).

This file gives a shallow embedding of the module's `Future` class (a
subclass of `concurrent.futures.Future`) and of the `PompLoopThread`
operations that the specification talks about: task-list draining,
`then`/`chain`/`set_from` composition, `stop`, `run_later`, the fd
registry (`_add_fd_to_loop` / `_remove_fd_from_loop`), `has_fd` with
`result_or_cancel`, and `destroy_timer`.

Python callables are modelled by their outcome (`CallOutcome`): a
returned value or a raised error.  Python exceptions are modelled by the
`Exn` type, with `Exn.isException` distinguishing `Exception` subclasses
(catchable by `except Exception`) from bare-`BaseException` subclasses
such as `KeyboardInterrupt`; note that
`concurrent.futures.CancelledError` derives from `Exception` (via
`concurrent.futures.Error`), so `except Exception` does catch it.  Registries (Python dicts keyed by fd / id) are
modelled by their key sets as `Finset Nat`, which is faithful for the
key-presence properties proved here.  The external libpomp reactor is
modelled by its observable status results (`reactorOk : Bool` for a
zero/non-zero return code) and, where ordering matters, by explicit
event traces.
-/

/-- Python values as far as this module inspects them: the only type test
in the source is `isinstance(ret, concurrent.futures.Future)`, so we track
whether a value is a Future (identified by id) or a plain value. -/
inductive PyVal where
  | int (n : Int)
  | bool (b : Bool)
  | pynone
  | futRef (fid : Nat)
deriving DecidableEq, Repr

/-- True exactly for values that are `concurrent.futures.Future` instances. -/
def PyVal.isFuture : PyVal → Bool
  | .futRef _ => true
  | _ => false

/-- Python exceptions relevant to this module.  `cancelledError` models
`concurrent.futures.CancelledError`, which subclasses `Exception` (via
`concurrent.futures.Error`); `attributeError` models the
`AttributeError` raised by accessing the missing `logging` attribute on
a `Future`; `invalidStateError` models
`concurrent.futures.InvalidStateError`; `userExn` models any
`Exception` raised by user code; `baseExn` models a `BaseException`
that is not an `Exception` (such as `KeyboardInterrupt`), the only
errors a bare `except:` catches that `except Exception` does not. -/
inductive Exn where
  | timeoutError
  | cancelledError
  | attributeError
  | invalidStateError
  | userExn (n : Nat)
  | baseExn (n : Nat)
deriving DecidableEq, Repr

/-- Whether `except Exception` catches this error: every constructor
but `baseExn` models an `Exception` subclass — in particular
`cancelledError` is caught, since `concurrent.futures.CancelledError`
derives from `Exception` in CPython. -/
def Exn.isException : Exn → Bool
  | .baseExn _ => false
  | _ => true

/-- The state machine of `concurrent.futures.Future`:
PENDING → RUNNING → {FULFILLED (FINISHED with a result), FAILED (FINISHED
with an exception), CANCELLED}.  CANCELLED_AND_NOTIFIED is folded into
`cancelled`. -/
inductive FState where
  | pending
  | running
  | fulfilled (v : PyVal)
  | failed (e : Exn)
  | cancelled
deriving DecidableEq, Repr

/-- `Future.done()`. -/
def FState.isDone : FState → Bool
  | .pending => false
  | .running => false
  | _ => true

/-- `Future.cancelled()`. -/
def FState.isCancelled : FState → Bool
  | .cancelled => true
  | _ => false

/-- `Future.cancel()`: succeeds only from PENDING (or when already
cancelled); a RUNNING or finished future is left unchanged and `False`
is returned. -/
def cancelF : FState → FState × Bool
  | .pending => (.cancelled, true)
  | .cancelled => (.cancelled, true)
  | s => (s, false)

/-- `Future.set_running_or_notify_cancel()`: PENDING → RUNNING returning
`True`; a cancelled future stays cancelled and `False` is returned; any
other state raises `InvalidStateError` (modelled as `none`). -/
def setRunningOrNotifyCancel : FState → Option (FState × Bool)
  | .pending => some (.running, true)
  | .cancelled => some (.cancelled, false)
  | _ => none

/-- `Future.set_result(v)`: allowed from PENDING or RUNNING, otherwise
raises `InvalidStateError` (modelled as `none`). -/
def setResultF : FState → PyVal → Option FState
  | .pending, v => some (.fulfilled v)
  | .running, v => some (.fulfilled v)
  | _, _ => none

/-- `Future.set_exception(e)`: allowed from PENDING or RUNNING, otherwise
raises `InvalidStateError` (modelled as `none`). -/
def setExceptionF : FState → Exn → Option FState
  | .pending, e => some (.failed e)
  | .running, e => some (.failed e)
  | _, _ => none

/-- `Future.result()` on a future that is already done: the stored value,
or the stored exception, or `CancelledError` for a cancelled future.
`none` when the future is not done (the real call would block). -/
def getResultF : FState → Option (Except Exn PyVal)
  | .fulfilled v => some (.ok v)
  | .failed e => some (.error e)
  | .cancelled => some (.error .cancelledError)
  | _ => none

/-- `Future.set_from(source)` from the source.  `racedCancel` models a
concurrent `cancel()` of `self` landing between the `self.done()` check
and `set_running_or_notify_cancel()`.  The result is `none` when the call
does not complete normally (`set_running_or_notify_cancel` raising on a
RUNNING self, or `source.exception()` blocking on a not-done source). -/
def Future.set_from (self source : FState) (racedCancel : Bool) : Option FState :=
  if source.isCancelled then some (cancelF self).1
  else if self.isDone then some self
  else
    let self1 := if racedCancel then (cancelF self).1 else self
    match setRunningOrNotifyCancel self1 with
    | none => none
    | some (s1, false) => some s1
    | some (s1, true) =>
      match source with
      | .failed e => setExceptionF s1 e
      | .fulfilled v => setResultF s1 v
      | _ => none

/-- `Future.chain(next_)` registers `lambda _: next_.set_from(self)` as a
done-callback on `self`; this is the effect of that callback firing once
`self` is done, with no concurrent cancel in flight. -/
def Future.chainFire (self next_ : FState) : Option FState :=
  Future.set_from next_ self false

/-- A Python callable (together with its arguments), abstracted by its
outcome when invoked: it returns a value or raises an error. -/
inductive CallOutcome where
  | retval (v : PyVal)
  | raise (e : Exn)
deriving DecidableEq, Repr

/-- Observable effect of executing one task entry in
`PompLoopThread._run_task_list`. -/
structure TaskStepResult where
  fut : FState
  logged : Bool
  chained : Option Nat
  escaped : Bool
deriving DecidableEq, Repr

/-- One iteration of the loop body of `PompLoopThread._run_task_list`:
pop `(future, f, args, kwds)`, run `f(*args, **kwds)`; on an `Exception`
log it, unregister (ignoring errors) and `set_exception`; otherwise
`set_result` for a non-Future return and `ret.chain(future)` for a Future
return.  `none` models an `InvalidStateError` escaping from
`set_result`/`set_exception`; `escaped` records a non-`Exception` error
escaping into the loop. -/
def run_task_entry (call : CallOutcome) (fut : FState) : Option TaskStepResult :=
  match call with
  | .raise e =>
    if e.isException then
      (setExceptionF fut e).map fun s =>
        { fut := s, logged := true, chained := none, escaped := false }
    else
      some { fut := fut, logged := false, chained := none, escaped := true }
  | .retval v =>
    match v with
    | .futRef g => some { fut := fut, logged := false, chained := some g, escaped := false }
    | _ =>
      (setResultF fut v).map fun s =>
        { fut := s, logged := false, chained := none, escaped := false }

/-- A queued task entry `(future, func, args, kwds)`: the future's id and
the callable's outcome. -/
structure TaskEntry where
  futId : Nat
  call : CallOutcome
deriving DecidableEq, Repr

/-- `PompLoopThread._run_task_list(task_list)` drains the list in FIFO
order, executing each entry (each task's future starts PENDING). -/
def run_task_list (tasks : List TaskEntry) : List (Nat × Option TaskStepResult) :=
  tasks.map fun t => (t.futId, run_task_entry t.call .pending)

/-- Observable effect of the done-callback installed by `Future.then`. -/
inductive Submission where
  | later (arg : PyVal)
  | asyncQ (arg : PyVal)
deriving DecidableEq, Repr

/-- Result of running the `then` callback: final state of the `result`
future, what was submitted to the loop (if anything), and the error that
escaped the callback (if any). -/
structure ThenEffect where
  resultSt : FState
  submitted : Option Submission
  escaped : Option Exn
deriving DecidableEq, Repr

/-- The `except Exception` / bare `except` structure at the end of the
`then` callback.  The `except Exception` body (which catches
`CancelledError` too, as it subclasses `Exception`) first evaluates
`self.logging`, but `Future` has no `logging` attribute, so an
`AttributeError` is raised inside the handler and escapes; the
`result.set_exception(e)` line is unreachable.  The bare `except`
(reached only for non-`Exception` errors such as `KeyboardInterrupt`)
runs `result.cancel()`. -/
def thenExceptHandler (e : Exn) (resultSt : FState) : ThenEffect :=
  if e.isException then
    { resultSt := resultSt, submitted := none, escaped := some .attributeError }
  else
    { resultSt := (cancelF resultSt).1, submitted := none, escaped := none }

/-- The done-callback installed on `self` by `Future.then(fn, deferred)`,
run once `self` is done.  `callerIsLoop` is the value of
`threading.current_thread() is self._loop` at callback time; `fn` is the
composed callable, abstracted by its outcome on each argument;
`resultSt` is the state of the `result` future when the callback runs
(PENDING unless externally cancelled).  `none` when `self` is not yet
done (the callback cannot have fired). -/
def thenCallback (deferred callerIsLoop : Bool) (selfSt resultSt : FState)
    (fn : PyVal → CallOutcome) : Option ThenEffect :=
  match getResultF selfSt with
  | none => none
  | some (.error e) => some (thenExceptHandler e resultSt)
  | some (.ok v) =>
    if deferred then
      some { resultSt := resultSt, submitted := some (.later v), escaped := none }
    else if !callerIsLoop then
      some { resultSt := resultSt, submitted := some (.asyncQ v), escaped := none }
    else
      match fn v with
      | .raise e => some (thenExceptHandler e resultSt)
      | .retval w =>
        match setResultF resultSt w with
        | some s => some { resultSt := s, submitted := none, escaped := none }
        | none => some (thenExceptHandler .invalidStateError resultSt)

/-- End-to-end outcome of the queued dispatch paths of `then` (both
`run_later` and `run_async` from a foreign thread): the submitted task
runs via `_run_task_list` with a fresh PENDING future `temp`, and
`temp.chain(result)` propagates `temp`'s outcome into `result` once
`temp` is done.  Defined for calls that do not return a Future (for the
Future-returning case see `queuedThenInnerOutcome`). -/
def queuedThenOutcome (callFn : CallOutcome) (resultSt : FState) : Option FState :=
  match run_task_entry callFn .pending with
  | none => none
  | some eff =>
    match eff.chained with
    | some _ => none
    | none => Future.chainFire eff.fut resultSt

/-- End-to-end outcome of the queued dispatch paths of `then` when the
composed callable returns an inner Future: `temp` is chained from the
inner future; once the inner future reaches the terminal state
`innerFinal`, `temp` receives it via `set_from`, and `temp`'s own chain
then propagates it into `result`. -/
def queuedThenInnerOutcome (innerFinal : FState) (resultSt : FState) : Option FState :=
  match Future.chainFire innerFinal .pending with
  | none => none
  | some temp1 => Future.chainFire temp1 resultSt

/-- Observable effect of `PompLoopThread.stop()`. -/
structure StopEffect where
  retval : Bool
  running : Bool
  wokeUp : Bool
  joined : Bool
deriving DecidableEq, Repr

/-- `PompLoopThread.stop()`: returns `False` when not running; otherwise
sets `running = False`, and when `threading.current_thread().ident` is
not the loop's own ident, signals the wake-up event and joins the loop
thread; returns `True`. -/
def PompLoopThread.stop (running : Bool) (callerIsLoopThread : Bool) : StopEffect :=
  if !running then
    { retval := false, running := running, wokeUp := false, joined := false }
  else
    { retval := true, running := false,
      wokeUp := !callerIsLoopThread, joined := !callerIsLoopThread }

/-- The loop-thread state touched by task submission: the two task
queues, the registered-future id list, and the number of wake-up signals
sent so far. -/
structure LoopState where
  async_pomp_task : List TaskEntry
  deferred_pomp_task : List TaskEntry
  futures : List Nat
  wakeups : Nat
deriving DecidableEq, Repr

/-- `PompLoopThread.run_later(func, *args, **kwds)`: create a `Future`,
register it, append the task entry to the deferred queue, and return the
future.  The source has no check on the calling thread, so the model
takes the caller's identity and ignores it; `newId` is the Python id of
the fresh future; the returned `FState` is the state of the returned
future at return time. -/
def PompLoopThread.run_later (callerIsLoop : Bool) (s : LoopState) (newId : Nat)
    (call : CallOutcome) : LoopState × Nat × FState :=
  let _ := callerIsLoop
  ({ s with futures := s.futures ++ [newId],
            deferred_pomp_task := s.deferred_pomp_task ++ [⟨newId, call⟩] },
   newId, .pending)

/-- The order in which one iteration of `PompLoopThread.run` executes
queued tasks: `_run_task_list(self.async_pomp_task)` first, then
`_run_task_list(self.deferred_pomp_task)`, each in FIFO order. -/
def iterationExecutionOrder (s : LoopState) : List TaskEntry :=
  s.async_pomp_task ++ s.deferred_pomp_task

/-- Events observable by the reactor and the fd registries during
`_add_fd_to_loop` / `_remove_fd_from_loop`, in program order.
`regDelete` is the `pomp_fd_callbacks.pop(fd)` that removes the
callback-table entry; `reactorRemove` / `reactorRemoveFail` is the
`pomp_loop_remove` call and its status; `regInsert` is the
`pomp_fd_callbacks[fd] = ...` assignment; `reactorAdd` /
`reactorAddFail` is the `pomp_loop_add` call and its status. -/
inductive FdEvent where
  | regInsert (fd : Nat)
  | reactorAdd (fd : Nat)
  | reactorAddFail (fd : Nat)
  | regDelete (fd : Nat)
  | reactorRemove (fd : Nat)
  | reactorRemoveFail (fd : Nat)
deriving DecidableEq, Repr

/-- The fd-related registries of `PompLoopThread` (key sets of the
Python dicts) together with the set of fds currently attached to the
underlying pomp loop (the reactor). -/
structure FdLoopState where
  fd_userdata : Finset Nat
  c_fd_userdata : Finset Nat
  pomp_fd_callbacks : Finset Nat
  reactorFds : Finset Nat
deriving DecidableEq

/-- Result of `_add_fd_to_loop`. -/
inductive AddFdResult where
  | returnedNone
  | ok
  | raisedRuntime
deriving DecidableEq, Repr

/-- `PompLoopThread._add_fd_to_loop(fd, cb, fd_events, userdata)`:
with `cb is None`, log and return `None` touching nothing; otherwise
store the userdata, the C userdata and the callback in the registries,
then call `pomp_loop_add`; a non-zero status raises `RuntimeError`
(leaving the registry entries in place, the fd not attached). -/
def add_fd_to_loop (s : FdLoopState) (fd : Nat) (cbIsNone : Bool)
    (reactorOk : Bool) : FdLoopState × AddFdResult × List FdEvent :=
  if cbIsNone then (s, .returnedNone, [])
  else
    let s1 : FdLoopState :=
      { s with fd_userdata := insert fd s.fd_userdata,
               c_fd_userdata := insert fd s.c_fd_userdata,
               pomp_fd_callbacks := insert fd s.pomp_fd_callbacks }
    if reactorOk then
      ({ s1 with reactorFds := insert fd s1.reactorFds }, .ok,
       [.regInsert fd, .reactorAdd fd])
    else
      (s1, .raisedRuntime, [.regInsert fd, .reactorAddFail fd])

/-- Result of `_remove_fd_from_loop`. -/
structure RemoveFdResult where
  state : FdLoopState
  retval : Bool
  trace : List FdEvent
deriving DecidableEq

/-- `PompLoopThread._remove_fd_from_loop(fd)`: pop the fd from
`fd_userdata` and `c_fd_userdata` unconditionally; when
`pomp_fd_callbacks.pop(fd)` finds an entry, call `pomp_loop_remove` and
return `False` (after logging) on a non-zero status; return `True`
otherwise.  On a failed reactor removal the fd's attachment is left as
it was (the remove did not take effect). -/
def remove_fd_from_loop (s : FdLoopState) (fd : Nat) (reactorOk : Bool) :
    RemoveFdResult :=
  let s1 : FdLoopState :=
    { s with fd_userdata := s.fd_userdata.erase fd,
             c_fd_userdata := s.c_fd_userdata.erase fd }
  if fd ∈ s.pomp_fd_callbacks then
    let s2 : FdLoopState := { s1 with pomp_fd_callbacks := s1.pomp_fd_callbacks.erase fd }
    if reactorOk then
      { state := { s2 with reactorFds := s2.reactorFds.erase fd },
        retval := true, trace := [.regDelete fd, .reactorRemove fd] }
    else
      { state := s2, retval := false, trace := [.regDelete fd, .reactorRemoveFail fd] }
  else
    { state := s1, retval := true, trace := [] }

/-- The registration invariant claimed by the spec: an fd key exists in
the callback table exactly when the fd is attached to the reactor. -/
def fdInv (s : FdLoopState) : Prop :=
  s.pomp_fd_callbacks = s.reactorFds

instance (s : FdLoopState) : Decidable (fdInv s) := by
  unfold fdInv; infer_instance

/-- The ordering the spec asserts for fd removal: every reactor detach
event for `fd` in the trace occurs strictly before every registry
deletion event for `fd`. -/
def detachBeforeDelete (tr : List FdEvent) (fd : Nat) : Prop :=
  ∀ i j, tr.get? i = some (.reactorRemove fd) → tr.get? j = some (.regDelete fd) → i < j

/-- Outcome of waiting on a future with a timeout, as seen by
`Future.result(timeout)`: either the future reached a terminal state in
time, or the deadline passed with the future still pending. -/
inductive WaitResult where
  | timedOut
  | doneFulfilled (v : PyVal)
  | doneFailed (e : Exn)
  | doneCancelled
deriving DecidableEq, Repr

/-- `Future.result_or_cancel(timeout)`: `self.result(timeout)`, and on
any error cancel `self` and re-raise.  Returns the state of `self` after
the call together with the value returned or error raised. -/
def Future.result_or_cancel (w : WaitResult) : FState × Except Exn PyVal :=
  match w with
  | .timedOut => ((cancelF .pending).1, .error .timeoutError)
  | .doneFulfilled v => (.fulfilled v, .ok v)
  | .doneFailed e => ((cancelF (.failed e)).1, .error e)
  | .doneCancelled => ((cancelF .cancelled).1, .error .cancelledError)

/-- `pomp_loop_has_fd(loop, fd)` of the reactor: 1 when the fd is
attached, 0 otherwise. -/
def pomp_loop_has_fd (reactorFds : Finset Nat) (fd : Nat) : Int :=
  if fd ∈ reactorFds then 1 else 0

/-- `PompLoopThread._has_fd(fd)`: `bool(pomp_loop_has_fd(...) == 1)`. -/
def PompLoopThread.hasFdInner (reactorFds : Finset Nat) (fd : Nat) : Bool :=
  pomp_loop_has_fd reactorFds fd = 1

/-- `PompLoopThread.has_fd(fd)`: submit `_has_fd` via `run_async` and
wait on the future with `result_or_cancel(timeout=5)`; a
`concurrent.futures.TimeoutError` is caught and converted to `False`;
any other error re-raised by `result_or_cancel` propagates.  `timedOut`
says whether the 5-second wait elapsed before the loop ran the task.
Returns the state of the underlying future and the call's outcome. -/
def PompLoopThread.has_fd (reactorFds : Finset Nat) (fd : Nat) (timedOut : Bool) :
    FState × Except Exn Bool :=
  let w : WaitResult :=
    if timedOut then .timedOut
    else .doneFulfilled (.bool (PompLoopThread.hasFdInner reactorFds fd))
  let r := Future.result_or_cancel w
  match r.2 with
  | .ok v =>
    (r.1, .ok (match v with | .bool b => b | _ => false))
  | .error .timeoutError => (r.1, .ok false)
  | .error e => (r.1, .error e)

/-- The timer registries of `PompLoopThread` (key sets of
`pomp_timers` and `pomp_timer_callbacks`, keyed by `id(pomp_timer)`). -/
structure TimerState where
  pomp_timers : Finset Nat
  pomp_timer_callbacks : Finset Nat
deriving DecidableEq

/-- Result of `destroy_timer`. -/
structure DestroyTimerResult where
  state : TimerState
  retval : Bool
  reactorInvoked : Bool
deriving DecidableEq

/-- `PompLoopThread.destroy_timer(pomp_timer)`: return `False` when the
timer's id is not in `pomp_timers` (without calling the reactor);
otherwise call `pomp_timer_destroy` and, on a non-zero status, log and
return `False` leaving both registry entries in place; on success delete
both registry entries and return `True`. -/
def PompLoopThread.destroy_timer (s : TimerState) (t : Nat) (reactorOk : Bool) :
    DestroyTimerResult :=
  if t ∉ s.pomp_timers then
    { state := s, retval := false, reactorInvoked := false }
  else if !reactorOk then
    { state := s, retval := false, reactorInvoked := true }
  else
    { state := { pomp_timers := s.pomp_timers.erase t,
                 pomp_timer_callbacks := s.pomp_timer_callbacks.erase t },
      retval := true, reactorInvoked := true }

/-- Claim C1: for every task entry drained by `_run_task_list`, a
non-Future return value v resolves the task future FULFILLED with v; an
`Exception` is logged and resolves the future FAILED with it, without
escaping into the loop control flow; a Future return chains the inner
future (recorded in `chained`) instead of resolving with the Future
object, and firing that chain delivers the inner terminal outcome. -/
theorem run_task_entry_outcomes :
    (∀ v : PyVal, v.isFuture = false →
        run_task_entry (.retval v) .pending =
          some { fut := .fulfilled v, logged := false, chained := none, escaped := false }) ∧
    (∀ e : Exn, e.isException = true →
        run_task_entry (.raise e) .pending =
          some { fut := .failed e, logged := true, chained := none, escaped := false }) ∧
    (∀ g : Nat,
        run_task_entry (.retval (.futRef g)) .pending =
          some { fut := .pending, logged := false, chained := some g, escaped := false }) ∧
    (∀ gFinal : FState, gFinal.isDone = true →
        Future.chainFire gFinal .pending = some gFinal) := by
  refine ⟨fun v hv => ?_, fun e he => ?_, fun g => rfl, fun gFinal hg => ?_⟩
  · cases v <;> simp_all [run_task_entry, setResultF, PyVal.isFuture]
  · cases e <;> simp_all [run_task_entry, setExceptionF, Exn.isException]
  · cases gFinal <;> simp_all [Future.chainFire, Future.set_from, FState.isDone,
      FState.isCancelled, cancelF, setRunningOrNotifyCancel, setResultF, setExceptionF]

/-- Witness for C1 at concrete inputs. -/
theorem run_task_entry_outcomes_witness :
    run_task_entry (.retval (.int 7)) .pending =
      some { fut := .fulfilled (.int 7), logged := false, chained := none, escaped := false } ∧
    run_task_entry (.raise (.userExn 3)) .pending =
      some { fut := .failed (.userExn 3), logged := true, chained := none, escaped := false } ∧
    run_task_entry (.raise .cancelledError) .pending =
      some { fut := .failed .cancelledError, logged := true, chained := none,
             escaped := false } ∧
    run_task_entry (.retval (.futRef 5)) .pending =
      some { fut := .pending, logged := false, chained := some 5, escaped := false } ∧
    Future.chainFire (.fulfilled (.int 9)) .pending = some (.fulfilled (.int 9)) :=
  ⟨run_task_entry_outcomes.1 (.int 7) rfl,
   run_task_entry_outcomes.2.1 (.userExn 3) rfl,
   run_task_entry_outcomes.2.1 .cancelledError rfl,
   run_task_entry_outcomes.2.2.1 5,
   run_task_entry_outcomes.2.2.2 (.fulfilled (.int 9)) rfl⟩

/-- Counterexample to claim C2 as stated: removing a present, attached
fd deletes the callback-table entry first (trace index 0) and detaches
from the reactor second (trace index 1), so the claimed detach-first
order fails; moreover a completed `_add_fd_to_loop` whose reactor add
failed leaves the fd in the callback table while not attached, breaking
the claimed iff invariant. -/
theorem remove_fd_order_counterexample :
    ((remove_fd_from_loop ⟨{7}, {7}, {7}, {7}⟩ 7 true).trace =
        [.regDelete 7, .reactorRemove 7] ∧
      ¬ detachBeforeDelete (remove_fd_from_loop ⟨{7}, {7}, {7}, {7}⟩ 7 true).trace 7) ∧
    ((add_fd_to_loop ⟨∅, ∅, ∅, ∅⟩ 3 false false).2.1 = .raisedRuntime ∧
      3 ∈ (add_fd_to_loop ⟨∅, ∅, ∅, ∅⟩ 3 false false).1.pomp_fd_callbacks ∧
      3 ∉ (add_fd_to_loop ⟨∅, ∅, ∅, ∅⟩ 3 false false).1.reactorFds ∧
      ¬ fdInv (add_fd_to_loop ⟨∅, ∅, ∅, ∅⟩ 3 false false).1) := by
  refine ⟨⟨by decide, fun h => ?_⟩, by decide, by decide, by decide, by decide⟩
  have h10 := h 1 0 (by decide) (by decide)
  omega

/-- Claim C2, amended: adding with a null callback touches neither the
registries nor the reactor and returns none; an add whose reactor call
succeeds and a remove whose reactor call succeeds (or whose fd is
absent) preserve the invariant that the callback table and the attached
set hold the same fds; and removing a present fd deletes the registry
entry first and performs the reactor detach second (the reverse of the
order the claim stated). -/
theorem fd_registry_invariant :
    (∀ (s : FdLoopState) (fd : Nat) (ro : Bool),
        add_fd_to_loop s fd true ro = (s, .returnedNone, [])) ∧
    (∀ (s : FdLoopState) (fd : Nat), fdInv s →
        fdInv (add_fd_to_loop s fd false true).1) ∧
    (∀ (s : FdLoopState) (fd : Nat), fdInv s →
        fdInv (remove_fd_from_loop s fd true).state) ∧
    (∀ (s : FdLoopState) (fd : Nat), fd ∈ s.pomp_fd_callbacks →
        (remove_fd_from_loop s fd true).trace = [.regDelete fd, .reactorRemove fd] ∧
        (remove_fd_from_loop s fd false).trace = [.regDelete fd, .reactorRemoveFail fd]) := by
  refine ⟨fun s fd ro => rfl, fun s fd h => ?_, fun s fd h => ?_, fun s fd h => ?_⟩
  · simp only [fdInv] at h ⊢
    simp [add_fd_to_loop, h]
  · simp only [fdInv] at h ⊢
    by_cases hm : fd ∈ s.pomp_fd_callbacks
    · have hr : fd ∈ s.reactorFds := h ▸ hm
      simp [remove_fd_from_loop, hm, hr, h]
    · have hr : fd ∉ s.reactorFds := h ▸ hm
      simp [remove_fd_from_loop, hm, hr, h]
  · constructor <;> simp [remove_fd_from_loop, h]

/-- Witness for the amended C2 at concrete inputs. -/
theorem fd_registry_invariant_witness :
    add_fd_to_loop ⟨∅, ∅, ∅, ∅⟩ 4 true true = (⟨∅, ∅, ∅, ∅⟩, .returnedNone, []) ∧
    fdInv (add_fd_to_loop ⟨∅, ∅, ∅, ∅⟩ 4 false true).1 ∧
    fdInv (remove_fd_from_loop ⟨{4}, {4}, {4}, {4}⟩ 4 true).state ∧
    (remove_fd_from_loop ⟨{4}, {4}, {4}, {4}⟩ 4 true).trace =
      [.regDelete 4, .reactorRemove 4] :=
  ⟨fd_registry_invariant.1 ⟨∅, ∅, ∅, ∅⟩ 4 true,
   fd_registry_invariant.2.1 ⟨∅, ∅, ∅, ∅⟩ 4 (by decide),
   fd_registry_invariant.2.2.1 ⟨{4}, {4}, {4}, {4}⟩ 4 (by decide),
   (fd_registry_invariant.2.2.2 ⟨{4}, {4}, {4}, {4}⟩ 4 (by decide)).1⟩

/-- Counterexample to claim C3 as stated: on the loop-thread inline
dispatch path, a composed callable returning a Future makes `then`
resolve the returned future FULFILLED with the Future object itself
(`futRef 5`, a Future value), instead of chaining the inner outcome. -/
theorem then_inline_future_counterexample :
    thenCallback false true (.fulfilled (.int 1)) .pending
        (fun _ => .retval (.futRef 5)) =
      some { resultSt := .fulfilled (.futRef 5), submitted := none, escaped := none } ∧
    PyVal.isFuture (.futRef 5) = true := ⟨rfl, rfl⟩

/-- Claim C3, amended: on the deferred (`run_later`) and foreign-thread
(`run_async`) dispatch paths the callback submits `fn` with the
resolved value and the end-to-end outcome of `C` is the outcome of
`fn(v)` — its value, its raised `Exception`, or, when `fn` returns a
Future, the terminal outcome of that inner future.  On the loop-thread
inline path `C` is resolved directly with the return value of `fn(v)`:
a plain value resolves `C` FULFILLED with it, a Future return resolves
`C` FULFILLED with the Future object itself, and an `Exception`-raising
`fn` (`CancelledError` included) leaves `C` PENDING with an
`AttributeError` escaping the handler. -/
theorem then_dispatch_outcomes :
    (∀ v : PyVal, ∀ fn : PyVal → CallOutcome,
        thenCallback true false (.fulfilled v) .pending fn =
          some { resultSt := .pending, submitted := some (.later v), escaped := none } ∧
        thenCallback true true (.fulfilled v) .pending fn =
          some { resultSt := .pending, submitted := some (.later v), escaped := none } ∧
        thenCallback false false (.fulfilled v) .pending fn =
          some { resultSt := .pending, submitted := some (.asyncQ v), escaped := none }) ∧
    (∀ w : PyVal, w.isFuture = false →
        queuedThenOutcome (.retval w) .pending = some (.fulfilled w)) ∧
    (∀ e : Exn, e.isException = true →
        queuedThenOutcome (.raise e) .pending = some (.failed e)) ∧
    (∀ gFinal : FState, gFinal.isDone = true →
        queuedThenInnerOutcome gFinal .pending = some gFinal) ∧
    (∀ v w : PyVal, w.isFuture = false →
        thenCallback false true (.fulfilled v) .pending (fun _ => .retval w) =
          some { resultSt := .fulfilled w, submitted := none, escaped := none }) ∧
    (∀ v : PyVal, ∀ g : Nat,
        thenCallback false true (.fulfilled v) .pending (fun _ => .retval (.futRef g)) =
          some { resultSt := .fulfilled (.futRef g), submitted := none, escaped := none }) ∧
    (∀ v : PyVal, ∀ e : Exn, e.isException = true →
        thenCallback false true (.fulfilled v) .pending (fun _ => .raise e) =
          some { resultSt := .pending, submitted := none, escaped := some .attributeError }) := by
  refine ⟨fun v fn => ⟨rfl, rfl, rfl⟩, fun w hw => ?_, fun e he => ?_,
    fun gFinal hg => ?_, fun v w hw => ?_, fun v g => rfl, fun v e he => ?_⟩
  · cases w <;> simp_all [queuedThenOutcome, run_task_entry, setResultF, Future.chainFire,
      Future.set_from, FState.isCancelled, FState.isDone, setRunningOrNotifyCancel,
      PyVal.isFuture]
  · cases e <;> simp_all [queuedThenOutcome, run_task_entry, setExceptionF, Future.chainFire,
      Future.set_from, FState.isCancelled, FState.isDone, setRunningOrNotifyCancel,
      Exn.isException]
  · cases gFinal <;> simp_all [queuedThenInnerOutcome, Future.chainFire, Future.set_from,
      FState.isCancelled, FState.isDone, cancelF, setRunningOrNotifyCancel, setResultF,
      setExceptionF]
  · cases w <;> simp_all [thenCallback, getResultF, setResultF, PyVal.isFuture]
  · cases e <;> simp_all [thenCallback, getResultF, thenExceptHandler, Exn.isException]

/-- Witness for the amended C3 at concrete inputs. -/
theorem then_dispatch_outcomes_witness :
    thenCallback true false (.fulfilled (.int 2)) .pending (fun _ => .retval .pynone) =
      some { resultSt := .pending, submitted := some (.later (.int 2)), escaped := none } ∧
    queuedThenOutcome (.retval (.int 8)) .pending = some (.fulfilled (.int 8)) ∧
    queuedThenOutcome (.raise (.userExn 1)) .pending = some (.failed (.userExn 1)) ∧
    queuedThenOutcome (.raise .cancelledError) .pending =
      some (.failed .cancelledError) ∧
    queuedThenInnerOutcome (.fulfilled (.int 6)) .pending = some (.fulfilled (.int 6)) ∧
    thenCallback false true (.fulfilled (.int 2)) .pending (fun _ => .retval (.int 3)) =
      some { resultSt := .fulfilled (.int 3), submitted := none, escaped := none } :=
  ⟨(then_dispatch_outcomes.1 (.int 2) (fun _ => .retval .pynone)).1,
   then_dispatch_outcomes.2.1 (.int 8) rfl,
   then_dispatch_outcomes.2.2.1 (.userExn 1) rfl,
   then_dispatch_outcomes.2.2.1 .cancelledError rfl,
   then_dispatch_outcomes.2.2.2.1 (.fulfilled (.int 6)) rfl,
   then_dispatch_outcomes.2.2.2.2.1 (.int 2) (.int 3) rfl⟩

/-- Claim C4 (code bug): in the `then` done-callback, every `Exception`
raised during the composition reaches the `except Exception` handler,
which evaluates `self.logging` on a `Future`; `Future` has no such
attribute, so an `AttributeError` escapes the handler, the returned
future is never failed and stays PENDING.  This covers a user
`Exception` raised by the composed callable inline, a raised
`CancelledError` (an `Exception` subclass, hence also caught there),
and a cancelled `self`, whose `self.result()` raises `CancelledError`.
Only a non-`Exception` failure (a bare `BaseException` such as
`KeyboardInterrupt`) reaches the bare `except` and cancels the
returned future as the claim states. -/
theorem then_handler_attribute_bug :
    thenCallback false true (.fulfilled (.int 0)) .pending (fun _ => .raise (.userExn 7)) =
      some { resultSt := .pending, submitted := none, escaped := some .attributeError } ∧
    thenCallback false true (.fulfilled (.int 0)) .pending (fun _ => .raise .cancelledError) =
      some { resultSt := .pending, submitted := none, escaped := some .attributeError } ∧
    thenCallback false true .cancelled .pending (fun _ => .retval .pynone) =
      some { resultSt := .pending, submitted := none, escaped := some .attributeError } ∧
    thenCallback false true (.fulfilled (.int 0)) .pending (fun _ => .raise (.baseExn 0)) =
      some { resultSt := .cancelled, submitted := none, escaped := none } :=
  ⟨rfl, rfl, rfl, rfl⟩

/-- Counterexample to claim C5 as stated: with `self` already FULFILLED
and `source` cancelled, `set_from` invokes `self.cancel()`, which is a
no-op on a finished future — `self` stays FULFILLED with 42 and is not
cancelled, against the claimed unconditional cancellation. -/
theorem set_from_done_self_counterexample :
    Future.set_from (.fulfilled (.int 42)) .cancelled false =
      some (.fulfilled (.int 42)) ∧
    FState.isCancelled (.fulfilled (.int 42)) = false := ⟨rfl, rfl⟩

/-- Claim C5, amended: with a cancelled source, `set_from` invokes
`cancel()` on self, which cancels self exactly when self was PENDING or
already CANCELLED and leaves a RUNNING or finished self unchanged; with
self already done (source not cancelled) nothing changes; a concurrent
cancel that lands before the RUNNING transition leaves self cancelled;
otherwise a PENDING self receives exactly the exception or the result
of the done source.  Consequently for `A.chain(B)` with B PENDING: A
FULFILLED with v makes B FULFILLED with v, and A cancelled makes B
cancelled. -/
theorem set_from_outcomes :
    (∀ (self : FState) (r : Bool),
        Future.set_from self .cancelled r = some (cancelF self).1) ∧
    (∀ self : FState, self = .pending ∨ self = .cancelled →
        (cancelF self).1 = .cancelled) ∧
    (∀ self : FState, self.isDone = true → self ≠ .cancelled →
        (cancelF self).1 = self) ∧
    (∀ (self source : FState) (r : Bool),
        source.isCancelled = false → self.isDone = true →
        Future.set_from self source r = some self) ∧
    (∀ source : FState, source.isCancelled = false →
        Future.set_from .pending source true = some .cancelled) ∧
    (∀ v : PyVal, Future.set_from .pending (.fulfilled v) false = some (.fulfilled v)) ∧
    (∀ e : Exn, Future.set_from .pending (.failed e) false = some (.failed e)) ∧
    (∀ v : PyVal, Future.chainFire (.fulfilled v) .pending = some (.fulfilled v)) ∧
    Future.chainFire .cancelled .pending = some .cancelled := by
  refine ⟨fun self r => rfl, fun self h => ?_, fun self h1 h2 => ?_,
    fun self source r h1 h2 => ?_, fun source h => ?_,
    fun v => rfl, fun e => rfl, fun v => rfl, rfl⟩
  · rcases h with h | h <;> subst h <;> rfl
  · cases self <;> simp_all [cancelF, FState.isDone]
  · cases source <;> cases self <;>
      simp_all [Future.set_from, FState.isCancelled, FState.isDone]
  · cases source <;>
      simp_all [Future.set_from, FState.isCancelled, FState.isDone, cancelF,
        setRunningOrNotifyCancel]

/-- Witness for the amended C5 at concrete inputs. -/
theorem set_from_outcomes_witness :
    Future.set_from .pending .cancelled false = some (cancelF .pending).1 ∧
    (cancelF .pending).1 = .cancelled ∧
    (cancelF (.fulfilled (.int 1))).1 = .fulfilled (.int 1) ∧
    Future.set_from (.failed (.userExn 2)) (.fulfilled (.int 3)) false =
      some (.failed (.userExn 2)) ∧
    Future.set_from .pending (.fulfilled (.int 3)) true = some .cancelled ∧
    Future.chainFire (.fulfilled (.int 4)) .pending = some (.fulfilled (.int 4)) :=
  ⟨set_from_outcomes.1 .pending false,
   set_from_outcomes.2.1 .pending (Or.inl rfl),
   set_from_outcomes.2.2.1 (.fulfilled (.int 1)) rfl (by simp),
   set_from_outcomes.2.2.2.1 (.failed (.userExn 2)) (.fulfilled (.int 3)) false rfl rfl,
   set_from_outcomes.2.2.2.2.1 (.fulfilled (.int 3)) rfl,
   set_from_outcomes.2.2.2.2.2.2.2.1 (.int 4)⟩

/-- Claim C6: `stop()` returns False and changes nothing when the loop
is not running; otherwise it clears `running` and returns True, and
signals the wake-up event and joins the loop thread exactly when the
caller is not the loop thread itself. -/
theorem stop_spec (c : Bool) :
    PompLoopThread.stop false c =
      { retval := false, running := false, wokeUp := false, joined := false } ∧
    PompLoopThread.stop true true =
      { retval := true, running := false, wokeUp := false, joined := false } ∧
    PompLoopThread.stop true false =
      { retval := true, running := false, wokeUp := true, joined := true } :=
  ⟨rfl, rfl, rfl⟩

/-- Claim C7: fd removal is idempotent — after any `_remove_fd_from_loop`
call, a second call for the same fd changes nothing, returns True and
produces no reactor event; and the first removal of a present fd drops
all three registry entries whatever the reactor status, returning the
reactor-level success. -/
theorem remove_fd_idempotent :
    (∀ (s : FdLoopState) (fd : Nat) (ro1 ro2 : Bool),
        remove_fd_from_loop (remove_fd_from_loop s fd ro1).state fd ro2 =
          { state := (remove_fd_from_loop s fd ro1).state, retval := true, trace := [] }) ∧
    (∀ (s : FdLoopState) (fd : Nat) (ro : Bool), fd ∈ s.pomp_fd_callbacks →
        fd ∉ (remove_fd_from_loop s fd ro).state.fd_userdata ∧
        fd ∉ (remove_fd_from_loop s fd ro).state.c_fd_userdata ∧
        fd ∉ (remove_fd_from_loop s fd ro).state.pomp_fd_callbacks ∧
        (remove_fd_from_loop s fd ro).retval = ro) := by
  constructor
  · intro s fd ro1 ro2
    by_cases hm : fd ∈ s.pomp_fd_callbacks <;> cases ro1 <;>
      simp [remove_fd_from_loop, hm, Finset.not_mem_erase, Finset.erase_idem]
  · intro s fd ro hm
    cases ro <;> simp [remove_fd_from_loop, hm, Finset.not_mem_erase]

/-- Witness for C7 at concrete inputs. -/
theorem remove_fd_idempotent_witness :
    remove_fd_from_loop (remove_fd_from_loop ⟨{2}, {2}, {2}, {2}⟩ 2 true).state 2 true =
      { state := (remove_fd_from_loop ⟨{2}, {2}, {2}, {2}⟩ 2 true).state,
        retval := true, trace := [] } ∧
    2 ∉ (remove_fd_from_loop ⟨{2}, {2}, {2}, {2}⟩ 2 false).state.pomp_fd_callbacks ∧
    (remove_fd_from_loop ⟨{2}, {2}, {2}, {2}⟩ 2 false).retval = false :=
  ⟨remove_fd_idempotent.1 ⟨{2}, {2}, {2}, {2}⟩ 2 true true,
   (remove_fd_idempotent.2 ⟨{2}, {2}, {2}, {2}⟩ 2 false (by decide)).2.2.1,
   (remove_fd_idempotent.2 ⟨{2}, {2}, {2}, {2}⟩ 2 false (by decide)).2.2.2⟩

/-- Claim C8: `run_later` appends exactly one entry at the tail of the
deferred queue, leaves the immediate queue and the wake-up count
untouched, behaves identically for any caller, returns the future still
PENDING (the callable is not executed), and in the next loop iteration
the queued task runs after every immediate-queue task. -/
theorem run_later_spec (caller : Bool) (s : LoopState) (newId : Nat) (call : CallOutcome) :
    PompLoopThread.run_later caller s newId call =
      ({ s with futures := s.futures ++ [newId],
                deferred_pomp_task := s.deferred_pomp_task ++ [⟨newId, call⟩] },
       newId, .pending) ∧
    (PompLoopThread.run_later caller s newId call).1.async_pomp_task =
      s.async_pomp_task ∧
    (PompLoopThread.run_later caller s newId call).1.wakeups = s.wakeups ∧
    PompLoopThread.run_later caller s newId call =
      PompLoopThread.run_later (!caller) s newId call ∧
    iterationExecutionOrder (PompLoopThread.run_later caller s newId call).1 =
      s.async_pomp_task ++ (s.deferred_pomp_task ++ [⟨newId, call⟩]) :=
  ⟨rfl, rfl, rfl, rfl, rfl⟩

/-- Claim C9: `has_fd` answers through `run_async` and a bounded
`result_or_cancel` wait: for an unregistered fd a completed query
returns False without raising; a registered fd returns True; and when
the wait times out the `TimeoutError` is swallowed, the underlying
future is left cancelled, and the answer is False. -/
theorem has_fd_spec (reactorFds : Finset Nat) (fd : Nat) :
    (fd ∉ reactorFds →
        PompLoopThread.has_fd reactorFds fd false =
          (.fulfilled (.bool false), .ok false)) ∧
    (fd ∈ reactorFds →
        PompLoopThread.has_fd reactorFds fd false =
          (.fulfilled (.bool true), .ok true)) ∧
    PompLoopThread.has_fd reactorFds fd true = (.cancelled, .ok false) := by
  refine ⟨fun h => ?_, fun h => ?_, rfl⟩ <;>
    simp [PompLoopThread.has_fd, PompLoopThread.hasFdInner, pomp_loop_has_fd, h,
      Future.result_or_cancel]

/-- Witness for C9 at concrete inputs. -/
theorem has_fd_spec_witness :
    PompLoopThread.has_fd (∅ : Finset Nat) 99 false =
      (.fulfilled (.bool false), .ok false) ∧
    PompLoopThread.has_fd ({7} : Finset Nat) 7 false =
      (.fulfilled (.bool true), .ok true) ∧
    PompLoopThread.has_fd (∅ : Finset Nat) 99 true = (.cancelled, .ok false) :=
  ⟨(has_fd_spec (∅ : Finset Nat) 99).1 (by decide),
   (has_fd_spec ({7} : Finset Nat) 7).2.1 (by decide),
   (has_fd_spec (∅ : Finset Nat) 99).2.2⟩

/-- Claim C10: `destroy_timer` on an unregistered timer returns False
without calling the reactor; on a registered timer whose reactor-level
destroy fails it returns False leaving both registry entries in place;
entries are deleted only on reactor success — unlike
`_remove_fd_from_loop`, which drops its registry entries even when the
reactor removal fails. -/
theorem destroy_timer_spec (s : TimerState) (t : Nat) :
    (t ∉ s.pomp_timers →
        PompLoopThread.destroy_timer s t true =
          { state := s, retval := false, reactorInvoked := false } ∧
        PompLoopThread.destroy_timer s t false =
          { state := s, retval := false, reactorInvoked := false }) ∧
    (t ∈ s.pomp_timers →
        PompLoopThread.destroy_timer s t false =
          { state := s, retval := false, reactorInvoked := true } ∧
        PompLoopThread.destroy_timer s t true =
          { state := { pomp_timers := s.pomp_timers.erase t,
                       pomp_timer_callbacks := s.pomp_timer_callbacks.erase t },
            retval := true, reactorInvoked := true }) ∧
    (∀ (fs : FdLoopState) (fd : Nat), fd ∈ fs.pomp_fd_callbacks →
        fd ∉ (remove_fd_from_loop fs fd false).state.pomp_fd_callbacks) := by
  refine ⟨fun h => ?_, fun h => ?_, fun fs fd h => ?_⟩
  · constructor <;> simp [PompLoopThread.destroy_timer, h]
  · constructor <;> simp [PompLoopThread.destroy_timer, h]
  · simp [remove_fd_from_loop, h, Finset.not_mem_erase]

/-- Witness for C10 at concrete inputs. -/
theorem destroy_timer_spec_witness :
    PompLoopThread.destroy_timer ⟨∅, ∅⟩ 9 true =
      { state := ⟨∅, ∅⟩, retval := false, reactorInvoked := false } ∧
    PompLoopThread.destroy_timer ⟨{9}, {9}⟩ 9 false =
      { state := ⟨{9}, {9}⟩, retval := false, reactorInvoked := true } ∧
    9 ∉ (remove_fd_from_loop ⟨{9}, {9}, {9}, {9}⟩ 9 false).state.pomp_fd_callbacks :=
  ⟨(destroy_timer_spec ⟨∅, ∅⟩ 9).1 (by decide) |>.1,
   (destroy_timer_spec ⟨{9}, {9}⟩ 9).2.1 (by decide) |>.1,
   (destroy_timer_spec ⟨{9}, {9}⟩ 9).2.2 ⟨{9}, {9}, {9}, {9}⟩ 9 (by decide)⟩
